import Mathlib

/-!
Verification of the tree-sitter based syntax checker
( src/utils/syntax_checker.py , class SyntaxChecker ).

The external tree-sitter library is modelled shallowly: a parsed syntax
tree is a `Node` (type string, missing flag, library error flag, 0-based
start/end points, byte span, children); a parser handle is a function
from source text to `Except String Node`, where `Except.error e` models
the parser raising an exception whose description is `e`.  Byte offsets
are identified with character offsets (exact for ASCII sources; the
Python code itself mixes byte columns with character slicing the same
way).
-/

namespace SyntaxChecker

/-- A tree-sitter syntax tree node: `type`, `is_missing`, `has_error`,
`start_point`/`end_point` (0-based row, column), `start_byte`/`end_byte`,
and `children`. -/
inductive Node : Type where
  | node (type : String) (is_missing : Bool) (has_error : Bool)
      (start_point : Nat × Nat) (end_point : Nat × Nat)
      (start_byte : Nat) (end_byte : Nat)
      (children : List Node)

def Node.type : Node → String
  | .node t _ _ _ _ _ _ _ => t

def Node.is_missing : Node → Bool
  | .node _ m _ _ _ _ _ _ => m

def Node.has_error : Node → Bool
  | .node _ _ e _ _ _ _ _ => e

def Node.start_point : Node → Nat × Nat
  | .node _ _ _ sp _ _ _ _ => sp

def Node.end_point : Node → Nat × Nat
  | .node _ _ _ _ ep _ _ _ => ep

def Node.start_byte : Node → Nat
  | .node _ _ _ _ _ sb _ _ => sb

def Node.end_byte : Node → Nat
  | .node _ _ _ _ _ _ eb _ => eb

def Node.children : Node → List Node
  | .node _ _ _ _ _ _ _ ch => ch

/-- One entry of the `errors` list in a check result dictionary. -/
structure Diagnostic : Type where
  line : Nat
  column : Nat
  message : String
  type : String
  node_type : String
deriving DecidableEq, Repr

/-- The dictionary returned by the check functions. -/
structure CheckResult : Type where
  has_errors : Bool
  is_valid : Bool
  errors : List Diagnostic
  language : String
  available : Bool
deriving DecidableEq, Repr

/-- Python slice `l[s:e]` (clamped at both ends). -/
def pySlice (l : List Char) (s e : Nat) : List Char :=
  (l.take e).drop s

/-- Python `s.startswith(p)` on character lists. -/
def startsWithL : List Char → List Char → Bool
  | _, [] => true
  | [], _ :: _ => false
  | c :: cs, p :: ps => c == p && startsWithL cs ps

/-- Python `s.endswith(p)` on character lists. -/
def endsWithL (s p : List Char) : Bool :=
  startsWithL s.reverse p.reverse

/-- Python `p in s` (contiguous substring test) on character lists. -/
def containsSeq (s p : List Char) : Bool :=
  match s with
  | [] => p.isEmpty
  | _ :: cs => startsWithL s p || containsSeq cs p

/-- Python `code.split(chr(10))`: split on newline, keeping empty pieces. -/
def split_lines : List Char → List (List Char)
  | [] => [[]]
  | c :: cs =>
    match split_lines cs with
    | [] => [[]]
    | r :: rs => if c == '\n' then [] :: r :: rs else (c :: r) :: rs

/-- Python `s.strip()` on character lists. -/
def stripL (l : List Char) : List Char :=
  ((l.dropWhile Char.isWhitespace).reverse.dropWhile Char.isWhitespace).reverse

/-- Characters after the first occurrence of `c` (`s.split(c, 1)[1]`
when `c` occurs), `none` when `c` does not occur. -/
def splitOnceRest : List Char → Char → Option (List Char)
  | [], _ => none
  | x :: xs, c => if x == c then some xs else splitOnceRest xs c

/-- Python `s.lower()` (ASCII model). -/
def lowerStr (s : String) : String :=
  String.mk (s.toList.map Char.toLower)

/-- The `error_text` computed for an `ERROR` node from `code_lines`
( src/utils/syntax_checker.py lines 253-257 and 425-429). -/
def error_text_of (code_lines : List (List Char)) (sp ep : Nat × Nat) : List Char :=
  match code_lines[sp.1]? with
  | none => []
  | some line =>
      if sp.2 < line.length then
        if ep.1 == sp.1 then pySlice line sp.2 ep.2 else line.drop sp.2
      else []

/-- Diagnostics appended for a single node by the Lua walker
`find_errors` ( src/utils/syntax_checker.py lines 243-291), in source
order: ERROR check, missing-node check, incomplete-binary-expression
check.  Every append in the source also sets `has_errors = True`. -/
def lua_node_diags (code_lines : List (List Char)) (n : Node) : List Diagnostic :=
  (if n.type == "ERROR" then
      let sp := n.start_point
      let et := error_text_of code_lines sp n.end_point
      [{ line := sp.1 + 1, column := sp.2 + 1,
         message := "Syntax error at line " ++ Nat.repr (sp.1 + 1) ++ ", column "
           ++ Nat.repr (sp.2 + 1)
           ++ (if (stripL et).isEmpty then "" else ": \x27" ++ String.mk et ++ "\x27"),
         type := "syntax_error", node_type := "ERROR" }]
    else [])
  ++ (if n.is_missing then
      let sp := n.start_point
      [{ line := sp.1 + 1, column := sp.2 + 1,
         message := "Missing " ++ n.type ++ " at line " ++ Nat.repr (sp.1 + 1)
           ++ ", column " ++ Nat.repr (sp.2 + 1),
         type := "missing_node", node_type := n.type }]
    else [])
  ++ (if n.type == "binary_expression" || n.type == "unary_expression" then
      (if n.type == "binary_expression" && n.children.length < 3 then
        let sp := n.start_point
        [{ line := sp.1 + 1, column := sp.2 + 1,
           message := "Incomplete binary expression at line " ++ Nat.repr (sp.1 + 1)
             ++ ", column " ++ Nat.repr (sp.2 + 1),
           type := "incomplete_expression", node_type := "binary_expression" }]
      else [])
    else [])

mutual

/-- The Lua tree walk ( src/utils/syntax_checker.py lines 243-295): the
pair threads the `nonlocal has_errors` flag and the `errors` list; each
source branch that appends a diagnostic also sets the flag. -/
def find_errors (code_lines : List (List Char)) :
    Bool × List Diagnostic → Node → Bool × List Diagnostic
  | st, n =>
    match n with
    | .node _ _ _ _ _ _ _ ch =>
      let ds := lua_node_diags code_lines n
      find_errors_list code_lines (st.1 || !ds.isEmpty, st.2 ++ ds) ch

/-- Recursion of `find_errors` over a child list, left to right. -/
def find_errors_list (code_lines : List (List Char)) :
    Bool × List Diagnostic → List Node → Bool × List Diagnostic
  | st, [] => st
  | st, c :: cs => find_errors_list code_lines (find_errors code_lines st c) cs

end

/-- Diagnostics appended for a single node by the XML walker
`find_xml_errors` ( src/utils/syntax_checker.py lines 415-528), in
source order: ERROR check, missing-node check, then the
element/comment/attribute specific checks.  Unlike the Lua walker it
has no binary-expression check. -/
def xml_node_diags (code_bytes : List Char) (code_lines : List (List Char))
    (n : Node) : List Diagnostic :=
  (if n.type == "ERROR" then
      let sp := n.start_point
      let et := error_text_of code_lines sp n.end_point
      [{ line := sp.1 + 1, column := sp.2 + 1,
         message := "XML syntax error at line " ++ Nat.repr (sp.1 + 1) ++ ", column "
           ++ Nat.repr (sp.2 + 1)
           ++ (if (stripL et).isEmpty then "" else ": \x27" ++ String.mk et ++ "\x27"),
         type := "syntax_error", node_type := "ERROR" }]
    else [])
  ++ (if n.is_missing then
      let sp := n.start_point
      [{ line := sp.1 + 1, column := sp.2 + 1,
         message := "Missing " ++ n.type ++ " at line " ++ Nat.repr (sp.1 + 1)
           ++ ", column " ++ Nat.repr (sp.2 + 1),
         type := "missing_node", node_type := n.type }]
    else [])
  ++ (if n.type == "element" then
      -- the source loop keeps the last child of each tag type
      match (n.children.filter (fun c => c.type == "start_tag")).getLast?,
            (n.children.filter (fun c => c.type == "end_tag")).getLast? with
      | some st, none =>
        let start_tag_text := pySlice code_bytes st.start_byte st.end_byte
        if !(endsWithL start_tag_text "/>".toList) then
          let sp := st.start_point
          [{ line := sp.1 + 1, column := sp.2 + 1,
             message := "Unclosed tag at line " ++ Nat.repr (sp.1 + 1) ++ ", column "
               ++ Nat.repr (sp.2 + 1),
             type := "unclosed_tag", node_type := "element" }]
        else []
      | _, _ => []
    else if n.type == "comment" then
      let comment_text := pySlice code_bytes n.start_byte n.end_byte
      (if !(startsWithL comment_text "<!--".toList) || !(endsWithL comment_text "-->".toList) then
          let sp := n.start_point
          [{ line := sp.1 + 1, column := sp.2 + 1,
             message := "Malformed comment at line " ++ Nat.repr (sp.1 + 1) ++ ", column "
               ++ Nat.repr (sp.2 + 1),
             type := "malformed_comment", node_type := "comment" }]
        else [])
      ++ (let comment_content := pySlice comment_text 4 (comment_text.length - 3)
        if containsSeq comment_content "--".toList then
          let sp := n.start_point
          [{ line := sp.1 + 1, column := sp.2 + 1,
             message := "Invalid \x27--\x27 sequence in comment content at line "
               ++ Nat.repr (sp.1 + 1) ++ ", column " ++ Nat.repr (sp.2 + 1),
             type := "invalid_comment_content", node_type := "comment" }]
        else [])
    else if n.type == "attribute" then
      let attribute_text := pySlice code_bytes n.start_byte n.end_byte
      match splitOnceRest attribute_text '=' with
      | none => []
      | some rest =>
        let value_part := stripL rest
        if !((startsWithL value_part ['"'] && endsWithL value_part ['"'])
              || (startsWithL value_part ['\x27'] && endsWithL value_part ['\x27'])) then
          let sp := n.start_point
          [{ line := sp.1 + 1, column := sp.2 + 1,
             message := "Unquoted attribute value at line " ++ Nat.repr (sp.1 + 1)
               ++ ", column " ++ Nat.repr (sp.2 + 1),
             type := "unquoted_attribute", node_type := "attribute" }]
        else []
    else [])

mutual

/-- The XML tree walk ( src/utils/syntax_checker.py lines 415-532), with
the `nonlocal has_errors` flag and `errors` list threaded as a pair. -/
def find_xml_errors (code_bytes : List Char) (code_lines : List (List Char)) :
    Bool × List Diagnostic → Node → Bool × List Diagnostic
  | st, n =>
    match n with
    | .node _ _ _ _ _ _ _ ch =>
      let ds := xml_node_diags code_bytes code_lines n
      find_xml_errors_list code_bytes code_lines (st.1 || !ds.isEmpty, st.2 ++ ds) ch

/-- Recursion of `find_xml_errors` over a child list, left to right. -/
def find_xml_errors_list (code_bytes : List Char) (code_lines : List (List Char)) :
    Bool × List Diagnostic → List Node → Bool × List Diagnostic
  | st, [] => st
  | st, c :: cs =>
      find_xml_errors_list code_bytes code_lines
        (find_xml_errors code_bytes code_lines st c) cs

end

/-- A parser handle: maps source text to a parse tree, or to the
description of a raised exception. -/
def ParserFun : Type := String → Except String Node

/-- The import-time and parser-construction environment of the module:
the three availability flags and, for each language, the outcome of
`Parser(Language(...))` construction (`none` models a caught
construction failure, as in `_get_lua_parser_handle` / `_get_xml_parser_handle`). -/
structure Env : Type where
  TREE_SITTER_AVAILABLE : Bool
  LUA_LANGUAGE_AVAILABLE : Bool
  XML_LANGUAGE_AVAILABLE : Bool
  lua_parser_ctor : Option ParserFun
  xml_parser_ctor : Option ParserFun

/-- `SyntaxChecker._get_lua_parser_handle` ( src/utils/syntax_checker.py lines
47-74): `None` when the runtime or grammar is unavailable, otherwise the
(cached) construction outcome; construction exceptions are caught in the
source and yield `None`, modelled by `lua_parser_ctor = none`. -/
def _get_lua_parser_handle (env : Env) : Option ParserFun :=
  if !env.TREE_SITTER_AVAILABLE || !env.LUA_LANGUAGE_AVAILABLE then none
  else env.lua_parser_ctor

/-- `SyntaxChecker._get_xml_parser_handle` ( src/utils/syntax_checker.py lines
76-104). -/
def _get_xml_parser_handle (env : Env) : Option ParserFun :=
  if !env.TREE_SITTER_AVAILABLE || !env.XML_LANGUAGE_AVAILABLE then none
  else env.xml_parser_ctor

/-- `SyntaxChecker.check_lua_syntax` ( src/utils/syntax_checker.py lines
189-336).  The only modelled raise point inside the `try` body is the parse call;
the `except` branch returns the `internal_error` result with
`available: True`. -/
def check_lua_syntax (env : Env) (code : String) : CheckResult :=
  if !env.LUA_LANGUAGE_AVAILABLE then
    { has_errors := true, is_valid := false,
      errors := [
        { line := 0, column := 0,
          message := "Tree-sitter Lua language is not available. Please install: pip install tree-sitter-lua",
          type := "dependency_error", node_type := "missing_lua_parser" }],
      language := "lua", available := false }
  else
    match _get_lua_parser_handle env with
    | none =>
      { has_errors := true, is_valid := false,
        errors := [
          { line := 0, column := 0,
            message := "Failed to initialize Lua parser",
            type := "parser_error", node_type := "initialization_error" }],
        language := "lua", available := false }
    | some parser =>
      match parser code with
      | .error e =>
        { has_errors := true, is_valid := false,
          errors := [
            { line := 0, column := 0,
              message := "Internal error during Lua syntax checking: " ++ e,
              type := "internal_error", node_type := "exception" }],
          language := "lua", available := true }
      | .ok root =>
        let code_lines := split_lines code.toList
        let walked := find_errors code_lines (false, []) root
        let final :=
          if !walked.1 && root.has_error then
            (true, walked.2 ++ [
              { line := 1, column := 1,
                message := "Code contains syntax errors that could not be precisely located",
                type := "general_syntax_error", node_type := "unknown" }])
          else walked
        { has_errors := final.1, is_valid := !final.1, errors := final.2,
          language := "lua", available := true }

/-- `SyntaxChecker.check_xml_syntax` ( src/utils/syntax_checker.py lines
338-573). -/
def check_xml_syntax (env : Env) (code : String) : CheckResult :=
  if !env.XML_LANGUAGE_AVAILABLE then
    { has_errors := true, is_valid := false,
      errors := [
        { line := 0, column := 0,
          message := "Tree-sitter XML language is not available. Please install: pip install tree-sitter-xml",
          type := "dependency_error", node_type := "missing_xml_parser" }],
      language := "xml", available := false }
  else
    match _get_xml_parser_handle env with
    | none =>
      { has_errors := true, is_valid := false,
        errors := [
          { line := 0, column := 0,
            message := "Failed to initialize XML parser",
            type := "parser_error", node_type := "initialization_error" }],
        language := "xml", available := false }
    | some parser =>
      match parser code with
      | .error e =>
        { has_errors := true, is_valid := false,
          errors := [
            { line := 0, column := 0,
              message := "Internal error during XML syntax checking: " ++ e,
              type := "internal_error", node_type := "exception" }],
          language := "xml", available := true }
      | .ok root =>
        let code_bytes := code.toList
        let code_lines := split_lines code.toList
        let walked := find_xml_errors code_bytes code_lines (false, []) root
        let final :=
          if !walked.1 && root.has_error then
            (true, walked.2 ++ [
              { line := 1, column := 1,
                message := "XML contains syntax errors that could not be precisely located",
                type := "general_syntax_error", node_type := "unknown" }])
          else walked
        { has_errors := final.1, is_valid := !final.1, errors := final.2,
          language := "xml", available := true }

/-- `SyntaxChecker.check_syntax` ( src/utils/syntax_checker.py lines
106-187): dependency gate, case-insensitive language dispatch,
unsupported-language fallback.  Nothing in the modelled dispatch path
raises, so the outer `except` branch is unreachable in the model. -/
def check_syntax (env : Env) (code language : String) : CheckResult :=
  if !env.TREE_SITTER_AVAILABLE then
    { has_errors := true, is_valid := false,
      errors := [
        { line := 0, column := 0,
          message := "Tree-sitter library is not available. Please install: pip install tree-sitter",
          type := "dependency_error", node_type := "missing_dependency" }],
      language := language, available := false }
  else if lowerStr language == "lua" then check_lua_syntax env code
  else if lowerStr language == "xml" then check_xml_syntax env code
  else
    { has_errors := true, is_valid := false,
      errors := [
        { line := 0, column := 0,
          message := "Unsupported language: " ++ language
          ++ ". Currently supported: \x27lua\x27, \x27xml\x27.",
              type := "unsupported_language", node_type := "language_error" }],
      language := language, available := true }

/-! ### Walker lemmas -/

theorem isEmpty_append_eq (l l' : List Diagnostic) :
    (l ++ l').isEmpty = (l.isEmpty && l'.isEmpty) := by
  cases l <;> simp [List.isEmpty]

theorem startsWithL_refl (l : List Char) : startsWithL l l = true := by
  induction l with
  | nil => rfl
  | cons c cs ih => simp [startsWithL, ih]

theorem startsWithL_append_left (l b : List Char) : startsWithL (l ++ b) l = true := by
  induction l with
  | nil => cases b <;> rfl
  | cons c cs ih => simp [startsWithL, ih]

theorem containsSeq_of_starts (s p : List Char) (h : startsWithL s p = true) :
    containsSeq s p = true := by
  cases s with
  | nil =>
      cases p with
      | nil => rfl
      | cons x xs => simp [startsWithL] at h
  | cons c cs => simp [containsSeq, h]

/-- Any contiguous occurrence is found by `containsSeq`. -/
theorem containsSeq_mid (a l b : List Char) : containsSeq (a ++ l ++ b) l = true := by
  induction a with
  | nil => exact containsSeq_of_starts _ _ (by simpa using startsWithL_append_left l b)
  | cons c cs ih =>
      have ih' : containsSeq (cs ++ (l ++ b)) l = true := by
        simpa [List.append_assoc] using ih
      simp [containsSeq, ih']

/-- In the Lua walk the threaded `has_errors` flag stays equal to
non-emptiness of the threaded error list (each source branch that
appends a diagnostic also sets the flag). -/
theorem find_errors_flag (cl : List (List Char)) :
    (∀ (st : Bool × List Diagnostic) (n : Node), st.1 = !st.2.isEmpty →
        (find_errors cl st n).1 = !(find_errors cl st n).2.isEmpty)
    ∧ (∀ (st : Bool × List Diagnostic) (cs : List Node), st.1 = !st.2.isEmpty →
        (find_errors_list cl st cs).1 = !(find_errors_list cl st cs).2.isEmpty) := by
  refine find_errors.mutual_induct cl
    (fun st n => st.1 = !st.2.isEmpty →
      (find_errors cl st n).1 = !(find_errors cl st n).2.isEmpty)
    (fun st cs => st.1 = !st.2.isEmpty →
      (find_errors_list cl st cs).1 = !(find_errors_list cl st cs).2.isEmpty)
    ?_ ?_ ?_
  · intro st t m he sp ep sb eb ch ds ih h
    simp only [find_errors]
    exact ih (by simp [h, isEmpty_append_eq, Bool.not_and])
  · intro st h
    simpa [find_errors_list] using h
  · intro st c cs ih1 ih2 h
    simp only [find_errors_list]
    exact ih2 (ih1 h)

/-- Any property that holds of every per-node diagnostic is preserved by
the Lua walk. -/
theorem find_errors_mem (cl : List (List Char)) (P : Diagnostic → Prop)
    (hP : ∀ (n : Node), ∀ d ∈ lua_node_diags cl n, P d) :
    (∀ (st : Bool × List Diagnostic) (n : Node), (∀ d ∈ st.2, P d) →
        ∀ d ∈ (find_errors cl st n).2, P d)
    ∧ (∀ (st : Bool × List Diagnostic) (cs : List Node), (∀ d ∈ st.2, P d) →
        ∀ d ∈ (find_errors_list cl st cs).2, P d) := by
  refine find_errors.mutual_induct cl
    (fun st n => (∀ d ∈ st.2, P d) → ∀ d ∈ (find_errors cl st n).2, P d)
    (fun st cs => (∀ d ∈ st.2, P d) → ∀ d ∈ (find_errors_list cl st cs).2, P d)
    ?_ ?_ ?_
  · intro st t m he sp ep sb eb ch ds ih h
    simp only [find_errors]
    refine ih ?_
    intro d hd
    rcases List.mem_append.mp hd with h1 | h2
    · exact h d h1
    · exact hP _ d h2
  · intro st h
    simpa [find_errors_list] using h
  · intro st c cs ih1 ih2 h
    simp only [find_errors_list]
    exact ih2 (ih1 h)

/-- The Lua walk only appends to the threaded error list. -/
theorem find_errors_prefix_mono (cl : List (List Char)) :
    (∀ (st : Bool × List Diagnostic) (n : Node), st.2 <+: (find_errors cl st n).2)
    ∧ (∀ (st : Bool × List Diagnostic) (cs : List Node),
        st.2 <+: (find_errors_list cl st cs).2) := by
  refine find_errors.mutual_induct cl
    (fun st n => st.2 <+: (find_errors cl st n).2)
    (fun st cs => st.2 <+: (find_errors_list cl st cs).2)
    ?_ ?_ ?_
  · intro st t m he sp ep sb eb ch ds ih
    simp only [find_errors]
    exact List.IsPrefix.trans ⟨ds, rfl⟩ ih
  · intro st
    simp [find_errors_list]
  · intro st c cs ih1 ih2
    simp only [find_errors_list]
    exact ih1.trans ih2

/-- Diagnostics contributed by a node itself appear in the output of the
Lua walk started at that node. -/
theorem lua_own_diags_in_walk (cl : List (List Char)) (n : Node) :
    ∀ d ∈ lua_node_diags cl n, d ∈ (find_errors cl (false, []) n).2 := by
  intro d hd
  cases n with
  | node t m he sp ep sb eb ch =>
    simp only [find_errors]
    refine ((find_errors_prefix_mono cl).2 _ ch).subset ?_
    simpa using hd

/-- XML analogue of `find_errors_flag`. -/
theorem find_xml_errors_flag (cb : List Char) (cl : List (List Char)) :
    (∀ (st : Bool × List Diagnostic) (n : Node), st.1 = !st.2.isEmpty →
        (find_xml_errors cb cl st n).1 = !(find_xml_errors cb cl st n).2.isEmpty)
    ∧ (∀ (st : Bool × List Diagnostic) (cs : List Node), st.1 = !st.2.isEmpty →
        (find_xml_errors_list cb cl st cs).1 = !(find_xml_errors_list cb cl st cs).2.isEmpty) := by
  refine find_xml_errors.mutual_induct cb cl
    (fun st n => st.1 = !st.2.isEmpty →
      (find_xml_errors cb cl st n).1 = !(find_xml_errors cb cl st n).2.isEmpty)
    (fun st cs => st.1 = !st.2.isEmpty →
      (find_xml_errors_list cb cl st cs).1 = !(find_xml_errors_list cb cl st cs).2.isEmpty)
    ?_ ?_ ?_
  · intro st t m he sp ep sb eb ch ds ih h
    simp only [find_xml_errors]
    exact ih (by simp [h, isEmpty_append_eq, Bool.not_and])
  · intro st h
    simpa [find_xml_errors_list] using h
  · intro st c cs ih1 ih2 h
    simp only [find_xml_errors_list]
    exact ih2 (ih1 h)

/-- XML analogue of `find_errors_mem`. -/
theorem find_xml_errors_mem (cb : List Char) (cl : List (List Char))
    (P : Diagnostic → Prop)
    (hP : ∀ (n : Node), ∀ d ∈ xml_node_diags cb cl n, P d) :
    (∀ (st : Bool × List Diagnostic) (n : Node), (∀ d ∈ st.2, P d) →
        ∀ d ∈ (find_xml_errors cb cl st n).2, P d)
    ∧ (∀ (st : Bool × List Diagnostic) (cs : List Node), (∀ d ∈ st.2, P d) →
        ∀ d ∈ (find_xml_errors_list cb cl st cs).2, P d) := by
  refine find_xml_errors.mutual_induct cb cl
    (fun st n => (∀ d ∈ st.2, P d) → ∀ d ∈ (find_xml_errors cb cl st n).2, P d)
    (fun st cs => (∀ d ∈ st.2, P d) → ∀ d ∈ (find_xml_errors_list cb cl st cs).2, P d)
    ?_ ?_ ?_
  · intro st t m he sp ep sb eb ch ds ih h
    simp only [find_xml_errors]
    refine ih ?_
    intro d hd
    rcases List.mem_append.mp hd with h1 | h2
    · exact h d h1
    · exact hP _ d h2
  · intro st h
    simpa [find_xml_errors_list] using h
  · intro st c cs ih1 ih2 h
    simp only [find_xml_errors_list]
    exact ih2 (ih1 h)

/-- XML analogue of `find_errors_prefix_mono`. -/
theorem find_xml_errors_prefix_mono (cb : List Char) (cl : List (List Char)) :
    (∀ (st : Bool × List Diagnostic) (n : Node), st.2 <+: (find_xml_errors cb cl st n).2)
    ∧ (∀ (st : Bool × List Diagnostic) (cs : List Node),
        st.2 <+: (find_xml_errors_list cb cl st cs).2) := by
  refine find_xml_errors.mutual_induct cb cl
    (fun st n => st.2 <+: (find_xml_errors cb cl st n).2)
    (fun st cs => st.2 <+: (find_xml_errors_list cb cl st cs).2)
    ?_ ?_ ?_
  · intro st t m he sp ep sb eb ch ds ih
    simp only [find_xml_errors]
    exact List.IsPrefix.trans ⟨ds, rfl⟩ ih
  · intro st
    simp [find_xml_errors_list]
  · intro st c cs ih1 ih2
    simp only [find_xml_errors_list]
    exact ih1.trans ih2

/-- Shape of every diagnostic emitted per node by the Lua walker:
1-based position (the 0-based point plus one) and one of the three walk
diagnostic kinds. -/
theorem lua_node_diags_prop (cl : List (List Char)) (n : Node) :
    ∀ d ∈ lua_node_diags cl n, 1 ≤ d.line ∧ 1 ≤ d.column
      ∧ (d.type = "syntax_error" ∨ d.type = "missing_node"
        ∨ d.type = "incomplete_expression") := by
  intro d hd
  unfold lua_node_diags at hd
  simp only [List.mem_append] at hd
  rcases hd with (h | h) | h
  · split at h <;> simp_all
  · split at h <;> simp_all
  · split at h
    · split at h <;> simp_all
    · simp_all

/-- Shape of every diagnostic emitted per node by the XML walker:
1-based position and one of the six walk diagnostic kinds. -/
theorem xml_node_diags_prop (cb : List Char) (cl : List (List Char)) (n : Node) :
    ∀ d ∈ xml_node_diags cb cl n, 1 ≤ d.line ∧ 1 ≤ d.column
      ∧ (d.type = "syntax_error" ∨ d.type = "missing_node" ∨ d.type = "unclosed_tag"
        ∨ d.type = "malformed_comment" ∨ d.type = "invalid_comment_content"
        ∨ d.type = "unquoted_attribute") := by
  intro d hd
  unfold xml_node_diags at hd
  simp only [List.mem_append] at hd
  rcases hd with (h | h) | h
  · split at h <;> simp_all
  · split at h <;> simp_all
  · split at h
    · -- element branch
      split at h
      · split at h <;> simp_all
      · simp_all
    · split at h
      · -- comment branch
        simp only [List.mem_append] at h
        rcases h with h | h <;> (split at h <;> simp_all)
      · split at h
        · -- attribute branch
          split at h
          · simp_all
          · split at h <;> simp_all
        · simp_all

/-- XML analogue of `lua_own_diags_in_walk`. -/
theorem xml_own_diags_in_walk (cb : List Char) (cl : List (List Char)) (n : Node) :
    ∀ d ∈ xml_node_diags cb cl n, d ∈ (find_xml_errors cb cl (false, []) n).2 := by
  intro d hd
  cases n with
  | node t m he sp ep sb eb ch =>
    simp only [find_xml_errors]
    refine ((find_xml_errors_prefix_mono cb cl).2 _ ch).subset ?_
    simpa using hd

/-! ### Result invariants of the three entry points -/

/-- Invariant of every `CheckResult` produced by the checker: `is_valid`
mirrors `has_errors`, `has_errors` mirrors non-emptiness of `errors`,
and an unavailable result carries exactly one availability diagnostic. -/
def resultInvariant (r : CheckResult) : Prop :=
  r.is_valid = !r.has_errors
  ∧ r.has_errors = !r.errors.isEmpty
  ∧ (r.available = false →
      ∃ d, r.errors = [d] ∧ (d.type = "dependency_error" ∨ d.type = "parser_error"))

theorem check_lua_syntax_invariant (env : Env) (code : String) :
    resultInvariant ( check_lua_syntax env code) := by
  unfold resultInvariant check_lua_syntax
  split
  · simp
  · split
    · simp
    · split
      · simp
      · rename_i root hroot
        have hflag := (find_errors_flag (split_lines code.toList)).1 (false, []) root (by simp)
        dsimp only
        split
        · simp [isEmpty_append_eq]
        · exact ⟨rfl, by simpa only [String.toList] using hflag, by simp⟩

theorem check_xml_syntax_invariant (env : Env) (code : String) :
    resultInvariant ( check_xml_syntax env code) := by
  unfold resultInvariant check_xml_syntax
  split
  · simp
  · split
    · simp
    · split
      · simp
      · rename_i root hroot
        have hflag := (find_xml_errors_flag code.toList (split_lines code.toList)).1
          (false, []) root (by simp)
        dsimp only
        split
        · simp [isEmpty_append_eq]
        · exact ⟨rfl, by simpa only [String.toList] using hflag, by simp⟩

theorem check_syntax_invariant (env : Env) (code language : String) :
    resultInvariant ( check_syntax env code language) := by
  unfold check_syntax
  split
  · simp [resultInvariant]
  · split
    · exact check_lua_syntax_invariant env code
    · split
      · exact check_xml_syntax_invariant env code
      · simp [resultInvariant]

/-- C1: every result of `check_syntax` (and of `check_lua_syntax` /
`check_xml_syntax`) satisfies `is_valid = !has_errors` and
`has_errors = (errors ≠ [])`; every result with `available = false` has
exactly one diagnostic (a dependency or parser-initialization
diagnostic) and `has_errors = true`. -/
theorem C1_result_invariants (env : Env) (code language : String) :
    (( check_syntax env code language).is_valid = !( check_syntax env code language).has_errors
      ∧ ( check_syntax env code language).has_errors
          = !( check_syntax env code language).errors.isEmpty
      ∧ (( check_syntax env code language).available = false →
          ( check_syntax env code language).errors.length = 1
          ∧ ( check_syntax env code language).has_errors = true))
    ∧ (( check_lua_syntax env code).is_valid = !( check_lua_syntax env code).has_errors
      ∧ ( check_lua_syntax env code).has_errors = !( check_lua_syntax env code).errors.isEmpty
      ∧ (( check_lua_syntax env code).available = false →
          ( check_lua_syntax env code).errors.length = 1
          ∧ ( check_lua_syntax env code).has_errors = true))
    ∧ (( check_xml_syntax env code).is_valid = !( check_xml_syntax env code).has_errors
      ∧ ( check_xml_syntax env code).has_errors = !( check_xml_syntax env code).errors.isEmpty
      ∧ (( check_xml_syntax env code).available = false →
          ( check_xml_syntax env code).errors.length = 1
          ∧ ( check_xml_syntax env code).has_errors = true)) := by
  have h1 := check_syntax_invariant env code language
  have h2 := check_lua_syntax_invariant env code
  have h3 := check_xml_syntax_invariant env code
  unfold resultInvariant at h1 h2 h3
  refine ⟨⟨h1.1, h1.2.1, ?_⟩, ⟨h2.1, h2.2.1, ?_⟩, ⟨h3.1, h3.2.1, ?_⟩⟩
  · intro hav
    obtain ⟨d, hd, -⟩ := h1.2.2 hav
    refine ⟨by simp [hd], ?_⟩
    rw [h1.2.1, hd]
    rfl
  · intro hav
    obtain ⟨d, hd, -⟩ := h2.2.2 hav
    refine ⟨by simp [hd], ?_⟩
    rw [h2.2.1, hd]
    rfl
  · intro hav
    obtain ⟨d, hd, -⟩ := h3.2.2 hav
    refine ⟨by simp [hd], ?_⟩
    rw [h3.2.1, hd]
    rfl

/-- Concrete environment: runtime and both grammars importable, both
parsers constructible; the parsers return an empty, error-free root. -/
def okRoot : Node := .node "document" false false (0, 0) (0, 0) 0 0 []

def envAll : Env :=
  { TREE_SITTER_AVAILABLE := true, LUA_LANGUAGE_AVAILABLE := true,
    XML_LANGUAGE_AVAILABLE := true,
    lua_parser_ctor := some (fun _ => .ok okRoot),
    xml_parser_ctor := some (fun _ => .ok okRoot) }

/-- Concrete environment in which the tree-sitter runtime is missing. -/
def envNoTS : Env :=
  { TREE_SITTER_AVAILABLE := false, LUA_LANGUAGE_AVAILABLE := false,
    XML_LANGUAGE_AVAILABLE := false, lua_parser_ctor := none, xml_parser_ctor := none }

theorem C1_result_invariants_witness :
    ( check_syntax envNoTS "x = 1" "lua").available = false
    ∧ ( check_syntax envNoTS "x = 1" "lua").errors.length = 1
    ∧ ( check_syntax envNoTS "x = 1" "lua").has_errors = true :=
  ⟨by decide, (C1_result_invariants envNoTS "x = 1" "lua").1.2.2 (by decide)⟩

/-- C2: `check_syntax` is a total function (it never propagates a
failure), and when the modelled failure point — the parse call of the
dispatched language — raises with description `e`, the returned result
carries exactly one `internal_error` diagnostic whose message contains
`e`. -/
theorem C2_internal_error (env : Env) (code language : String) (p : ParserFun) (e : String)
    (hroute : (lowerStr language = "lua" ∧ _get_lua_parser_handle env = some p)
      ∨ (lowerStr language = "xml" ∧ _get_xml_parser_handle env = some p))
    (hraise : p code = Except.error e) :
    ∃ d : Diagnostic, ( check_syntax env code language).errors = [d]
      ∧ d.type = "internal_error"
      ∧ containsSeq d.message.toList e.toList = true := by
  have hts : env.TREE_SITTER_AVAILABLE = true := by
    rcases hroute with ⟨-, hp⟩ | ⟨-, hp⟩
    · unfold _get_lua_parser_handle at hp
      by_contra h
      rw [Bool.not_eq_true] at h
      simp [h] at hp
    · unfold _get_xml_parser_handle at hp
      by_contra h
      rw [Bool.not_eq_true] at h
      simp [h] at hp
  rcases hroute with ⟨hl, hp⟩ | ⟨hl, hp⟩
  · have hlua : env.LUA_LANGUAGE_AVAILABLE = true := by
      unfold _get_lua_parser_handle at hp
      by_contra h
      rw [Bool.not_eq_true] at h
      simp [h] at hp
    have hres : check_lua_syntax env code
        = { has_errors := true, is_valid := false,
            errors := [
              { line := 0, column := 0,
                message := "Internal error during Lua syntax checking: " ++ e,
                type := "internal_error", node_type := "exception" }],
            language := "lua", available := true } := by
      unfold check_lua_syntax
      simp [hlua, hp, hraise]
    have hdisp : check_syntax env code language = check_lua_syntax env code := by
      unfold check_syntax
      simp [hts, hl]
    refine ⟨_, by rw [hdisp, hres], rfl, ?_⟩
    have hc := containsSeq_mid ("Internal error during Lua syntax checking: ").toList e.toList []
    simpa using hc
  · have hxml : env.XML_LANGUAGE_AVAILABLE = true := by
      unfold _get_xml_parser_handle at hp
      by_contra h
      rw [Bool.not_eq_true] at h
      simp [h] at hp
    have hres : check_xml_syntax env code
        = { has_errors := true, is_valid := false,
            errors := [
              { line := 0, column := 0,
                message := "Internal error during XML syntax checking: " ++ e,
                type := "internal_error", node_type := "exception" }],
            language := "xml", available := true } := by
      unfold check_xml_syntax
      simp [hxml, hp, hraise]
    have hdisp : check_syntax env code language = check_xml_syntax env code := by
      unfold check_syntax
      rcases hlow : lowerStr language == "lua" with - | -
      · simp [hts, hl, hlow]
      · exfalso
        rw [beq_iff_eq] at hlow
        rw [hl] at hlow
        exact absurd hlow (by decide)
    refine ⟨_, by rw [hdisp, hres], rfl, ?_⟩
    have hc := containsSeq_mid ("Internal error during XML syntax checking: ").toList e.toList []
    simpa using hc

/-- A parser handle whose parse call raises. -/
def boomParser : ParserFun := fun _ => Except.error "boom"

def envBoom : Env :=
  { TREE_SITTER_AVAILABLE := true, LUA_LANGUAGE_AVAILABLE := true,
    XML_LANGUAGE_AVAILABLE := true,
    lua_parser_ctor := some boomParser, xml_parser_ctor := some boomParser }

theorem C2_internal_error_witness :
    ∃ d : Diagnostic, ( check_syntax envBoom "x = 1" "lua").errors = [d]
      ∧ d.type = "internal_error"
      ∧ containsSeq d.message.toList ("boom").toList = true :=
  C2_internal_error envBoom "x = 1" "lua" boomParser "boom"
    (Or.inl ⟨by decide, rfl⟩) rfl

theorem check_lua_syntax_language (env : Env) (code : String) :
    ( check_lua_syntax env code).language = "lua" := by
  unfold check_lua_syntax
  split
  · rfl
  · split
    · rfl
    · split
      · rfl
      · rfl

theorem check_xml_syntax_language (env : Env) (code : String) :
    ( check_xml_syntax env code).language = "xml" := by
  unfold check_xml_syntax
  split
  · rfl
  · split
    · rfl
    · split
      · rfl
      · rfl

/-- C3 counterexample: with the runtime and grammars available, calling
`check_syntax` with the identifier "LUA" yields a result whose
`language` field is the canonical lowercase "lua", not the verbatim
input "LUA". -/
theorem C3_counterexample :
    ( check_syntax envAll "x = 1" "LUA").language = "lua"
    ∧ ( check_syntax envAll "x = 1" "LUA").language ≠ "LUA" := by
  decide

/-- C3 (amended): the `language` field echoes the input identifier
verbatim only on the runtime-missing and unsupported-language paths;
when the identifier lower-cases to "lua" or "xml" (and the runtime is
available) the `language` field of the result is the canonical lowercase
name. -/
theorem C3_amended_language_field (env : Env) (code language : String) :
    (env.TREE_SITTER_AVAILABLE = false →
        ( check_syntax env code language).language = language)
    ∧ (env.TREE_SITTER_AVAILABLE = true → lowerStr language = "lua" →
        ( check_syntax env code language).language = "lua")
    ∧ (env.TREE_SITTER_AVAILABLE = true → lowerStr language = "xml" →
        ( check_syntax env code language).language = "xml")
    ∧ (env.TREE_SITTER_AVAILABLE = true → lowerStr language ≠ "lua" →
        lowerStr language ≠ "xml" →
        ( check_syntax env code language).language = language) := by
  refine ⟨?_, ?_, ?_, ?_⟩
  · intro hts
    unfold check_syntax
    simp [hts]
  · intro hts hl
    unfold check_syntax
    simp [hts, hl, check_lua_syntax_language]
  · intro hts hl
    have hne : (lowerStr language == "lua") = false := by
      rw [beq_eq_false_iff_ne, hl]
      decide
    unfold check_syntax
    simp [hts, hl, hne, check_xml_syntax_language]
  · intro hts h1 h2
    have hne1 : (lowerStr language == "lua") = false := by
      rwa [beq_eq_false_iff_ne]
    have hne2 : (lowerStr language == "xml") = false := by
      rwa [beq_eq_false_iff_ne]
    unfold check_syntax
    simp [hts, hne1, hne2]

theorem C3_amended_language_field_witness :
    ( check_syntax envAll "x = 1" "lua").language = "lua"
    ∧ ( check_syntax envAll "" "cobol").language = "cobol" :=
  ⟨(C3_amended_language_field envAll "x = 1" "lua").2.1 (by decide) (by decide),
   (C3_amended_language_field envAll "" "cobol").2.2.2 (by decide) (by decide) (by decide)⟩

/-- C4: when the runtime is available and the identifier lower-cases to
neither "lua" nor "xml", `check_syntax` returns `available = true`,
`has_errors = true` and exactly one `unsupported_language` diagnostic
whose message names the unrecognized identifier. -/
theorem C4_unsupported_language (env : Env) (code language : String)
    (hts : env.TREE_SITTER_AVAILABLE = true)
    (h1 : lowerStr language ≠ "lua") (h2 : lowerStr language ≠ "xml") :
    check_syntax env code language
      = { has_errors := true, is_valid := false,
          errors := [
            { line := 0, column := 0,
              message := "Unsupported language: " ++ language
                ++ ". Currently supported: \x27lua\x27, \x27xml\x27.",
              type := "unsupported_language", node_type := "language_error" }],
          language := language, available := true }
    ∧ containsSeq ("Unsupported language: " ++ language
          ++ ". Currently supported: \x27lua\x27, \x27xml\x27.").toList
        language.toList = true := by
  constructor
  · have hne1 : (lowerStr language == "lua") = false := by
      rwa [beq_eq_false_iff_ne]
    have hne2 : (lowerStr language == "xml") = false := by
      rwa [beq_eq_false_iff_ne]
    unfold check_syntax
    simp [hts, hne1, hne2]
  · have hc := containsSeq_mid ("Unsupported language: ").toList language.toList
      (". Currently supported: \x27lua\x27, \x27xml\x27.").toList
    simpa using hc

theorem C4_unsupported_language_witness :
    check_syntax envAll "" "cobol"
      = { has_errors := true, is_valid := false,
          errors := [
            { line := 0, column := 0,
              message := "Unsupported language: cobol. Currently supported: \x27lua\x27, \x27xml\x27.",
              type := "unsupported_language", node_type := "language_error" }],
          language := "cobol", available := true }
    ∧ containsSeq ("Unsupported language: " ++ "cobol"
          ++ ". Currently supported: \x27lua\x27, \x27xml\x27.").toList
        ("cobol").toList = true :=
  C4_unsupported_language envAll "" "cobol" (by decide) (by decide) (by decide)

/-- Shape of the per-node diagnostics for a `comment` node: optional
missing-node diagnostic, then the two independent comment checks. -/
theorem xml_node_diags_comment (cb : List Char) (cl : List (List Char))
    (m he : Bool) (sp ep : Nat × Nat) (sb eb : Nat) (ch : List Node) :
    xml_node_diags cb cl (.node "comment" m he sp ep sb eb ch)
      = (if m then
            [{ line := sp.1 + 1, column := sp.2 + 1,
               message := "Missing comment at line " ++ Nat.repr (sp.1 + 1)
                 ++ ", column " ++ Nat.repr (sp.2 + 1),
               type := "missing_node", node_type := "comment" }]
          else [])
        ++ ((if !(startsWithL (pySlice cb sb eb) ("<!--").toList)
                || !(endsWithL (pySlice cb sb eb) ("-->").toList) then
              [{ line := sp.1 + 1, column := sp.2 + 1,
                 message := "Malformed comment at line " ++ Nat.repr (sp.1 + 1)
                   ++ ", column " ++ Nat.repr (sp.2 + 1),
                 type := "malformed_comment", node_type := "comment" }]
            else [])
          ++ (if containsSeq
                  (pySlice (pySlice cb sb eb) 4 ((pySlice cb sb eb).length - 3))
                  ("--").toList then
              [{ line := sp.1 + 1, column := sp.2 + 1,
                 message := "Invalid \x27--\x27 sequence in comment content at line "
                   ++ Nat.repr (sp.1 + 1) ++ ", column " ++ Nat.repr (sp.2 + 1),
                 type := "invalid_comment_content", node_type := "comment" }]
            else [])) := by
  simp [xml_node_diags, Node.type, Node.is_missing, Node.start_point, Node.start_byte,
    Node.end_byte]

/-- C5: for every tree node of type `comment`, the XML rule set emits a
`malformed_comment` diagnostic exactly when the literal node text does
not both begin with the 4-character open marker and end with the
3-character close marker, and — independently — an
`invalid_comment_content` diagnostic exactly when the text stripped of
its first 4 and last 3 characters contains the sequence "--"; both can
fire on one node, and every such diagnostic appears in the output of the
XML walk started at that node. -/
theorem C5_comment_checks (cb : List Char) (cl : List (List Char)) (n : Node)
    (hty : n.type = "comment") :
    ((∃ d ∈ xml_node_diags cb cl n, d.type = "malformed_comment")
      ↔ ¬(startsWithL (pySlice cb n.start_byte n.end_byte) ("<!--").toList = true
            ∧ endsWithL (pySlice cb n.start_byte n.end_byte) ("-->").toList = true))
    ∧ ((∃ d ∈ xml_node_diags cb cl n, d.type = "invalid_comment_content")
      ↔ containsSeq
          (pySlice (pySlice cb n.start_byte n.end_byte) 4
            ((pySlice cb n.start_byte n.end_byte).length - 3))
          ("--").toList = true)
    ∧ (∀ d ∈ xml_node_diags cb cl n, d ∈ (find_xml_errors cb cl (false, []) n).2) := by
  rcases n with ⟨t, m, he, sp, ep, sb, eb, ch⟩
  simp only [Node.type] at hty
  subst hty
  refine ⟨?_, ?_, xml_own_diags_in_walk cb cl _⟩
  · cases hs : startsWithL (pySlice cb sb eb) ['<', '!', '-', '-'] <;>
      cases hen : endsWithL (pySlice cb sb eb) ['-', '-', '>'] <;>
      cases hm : m <;>
      cases hct : containsSeq
        (pySlice (pySlice cb sb eb) 4 ((pySlice cb sb eb).length - 3)) ['-', '-'] <;>
      simp [xml_node_diags_comment, Node.start_byte, Node.end_byte, hs, hen, hm, hct]
  · cases hs : startsWithL (pySlice cb sb eb) ['<', '!', '-', '-'] <;>
      cases hen : endsWithL (pySlice cb sb eb) ['-', '-', '>'] <;>
      cases hm : m <;>
      cases hct : containsSeq
        (pySlice (pySlice cb sb eb) 4 ((pySlice cb sb eb).length - 3)) ['-', '-'] <;>
      simp [xml_node_diags_comment, Node.start_byte, Node.end_byte, hs, hen, hm, hct]

/-- A comment node over the text `<!- a -- b ->`: malformed (missing
open marker) and with "--" in its stripped content, so both checks
fire. -/
def badCommentText : String := "<!- a -- b ->"

def badCommentNode : Node :=
  .node "comment" false false (0, 0) (0, 13) 0 13 []

theorem C5_comment_checks_witness :
    (∃ d ∈ xml_node_diags badCommentText.toList [] badCommentNode,
        d.type = "malformed_comment")
    ∧ (∃ d ∈ xml_node_diags badCommentText.toList [] badCommentNode,
        d.type = "invalid_comment_content") :=
  ⟨(C5_comment_checks badCommentText.toList [] badCommentNode rfl).1.mpr (by decide),
   (C5_comment_checks badCommentText.toList [] badCommentNode rfl).2.1.mpr (by decide)⟩

/-- Shape of the per-node diagnostics for an `element` node. -/
theorem xml_node_diags_element (cb : List Char) (cl : List (List Char))
    (m he : Bool) (sp ep : Nat × Nat) (sb eb : Nat) (ch : List Node) :
    xml_node_diags cb cl (.node "element" m he sp ep sb eb ch)
      = (if m then
            [{ line := sp.1 + 1, column := sp.2 + 1,
               message := "Missing element at line " ++ Nat.repr (sp.1 + 1)
                 ++ ", column " ++ Nat.repr (sp.2 + 1),
               type := "missing_node", node_type := "element" }]
          else [])
        ++ (match (ch.filter (fun c => c.type == "start_tag")).getLast?,
              (ch.filter (fun c => c.type == "end_tag")).getLast? with
            | some st, none =>
              if !(endsWithL (pySlice cb st.start_byte st.end_byte) ("/>").toList) then
                [{ line := st.start_point.1 + 1, column := st.start_point.2 + 1,
                   message := "Unclosed tag at line " ++ Nat.repr (st.start_point.1 + 1)
                     ++ ", column " ++ Nat.repr (st.start_point.2 + 1),
                   type := "unclosed_tag", node_type := "element" }]
              else []
            | _, _ => []) := by
  simp [xml_node_diags, Node.type, Node.is_missing, Node.start_point, Node.start_byte,
    Node.end_byte, Node.children]

/-- C6: for every `element` node whose direct children contain a
`start_tag` (the walker keeps the last one) but no `end_tag`, if the
literal text of the start tag does not end with the self-closing marker
"/>", an `unclosed_tag` diagnostic is emitted at the 1-based
position of the start tag, and it appears in the output of the XML walk started
at that node. -/
theorem C6_unclosed_tag (cb : List Char) (cl : List (List Char)) (n st_node : Node)
    (hty : n.type = "element")
    (hst : (n.children.filter (fun c => c.type == "start_tag")).getLast? = some st_node)
    (hend : ∀ c ∈ n.children, c.type ≠ "end_tag")
    (hself : endsWithL (pySlice cb st_node.start_byte st_node.end_byte) ['/', '>'] = false) :
    ∃ d ∈ xml_node_diags cb cl n, d.type = "unclosed_tag"
      ∧ d.line = st_node.start_point.1 + 1 ∧ d.column = st_node.start_point.2 + 1
      ∧ d ∈ (find_xml_errors cb cl (false, []) n).2 := by
  have hfe : n.children.filter (fun c => c.type == "end_tag") = [] := by
    rw [List.filter_eq_nil_iff]
    intro c hc
    simpa using hend c hc
  have hmem :
      ({ line := st_node.start_point.1 + 1, column := st_node.start_point.2 + 1,
         message := "Unclosed tag at line " ++ Nat.repr (st_node.start_point.1 + 1)
           ++ ", column " ++ Nat.repr (st_node.start_point.2 + 1),
         type := "unclosed_tag", node_type := "element" } : Diagnostic)
        ∈ xml_node_diags cb cl n := by
    rcases n with ⟨t, m, he, sp, ep, sb, eb, ch⟩
    simp only [Node.type] at hty
    subst hty
    simp only [Node.children] at hst hfe
    rw [xml_node_diags_element, hst, hfe]
    cases m <;> simp [hself]
  exact ⟨_, hmem, rfl, rfl, rfl, xml_own_diags_in_walk cb cl n _ hmem⟩

def unclosedStartTag : Node := .node "start_tag" false false (0, 0) (0, 6) 0 6 []

def unclosedElement : Node :=
  .node "element" false true (0, 0) (0, 8) 0 8 [unclosedStartTag]

theorem C6_unclosed_tag_witness :
    ∃ d ∈ xml_node_diags ("<item>hi").toList [] unclosedElement,
      d.type = "unclosed_tag"
      ∧ d.line = unclosedStartTag.start_point.1 + 1
      ∧ d.column = unclosedStartTag.start_point.2 + 1
      ∧ d ∈ (find_xml_errors ("<item>hi").toList [] (false, []) unclosedElement).2 :=
  C6_unclosed_tag ("<item>hi").toList [] unclosedElement unclosedStartTag
    rfl rfl (by decide) (by decide)

/-- A `binary_expression` node with fewer than 3 children. -/
def bexpNode : Node := .node "binary_expression" false false (0, 0) (0, 1) 0 1 []

/-- C7 counterexample: the XML walk (`find_xml_errors`) has no
binary-expression check — on a `binary_expression` node with fewer
than 3 children it emits no diagnostic at all, in particular no
`incomplete_expression` one, contradicting the claim that the check
applies to the walk of every supported language. -/
theorem C7_counterexample :
    bexpNode.type = "binary_expression"
    ∧ bexpNode.children.length < 3
    ∧ (find_xml_errors [] [] (false, []) bexpNode).2 = [] := by
  decide

/-- C7 (amended): only the Lua walk emits `incomplete_expression` for a
`binary_expression` node with fewer than 3 children, at the 1-based
start position of the node; the XML walk performs no such check and never
emits a diagnostic of that type. -/
theorem C7_amended_incomplete_expression (cl : List (List Char)) (n : Node)
    (hty : n.type = "binary_expression") (hlen : n.children.length < 3) :
    (∃ d ∈ lua_node_diags cl n, d.type = "incomplete_expression"
      ∧ d.line = n.start_point.1 + 1 ∧ d.column = n.start_point.2 + 1
      ∧ d ∈ (find_errors cl (false, []) n).2)
    ∧ ∀ (cb : List Char) (d : Diagnostic), d ∈ xml_node_diags cb cl n →
        d.type ≠ "incomplete_expression" := by
  constructor
  · have hmem :
        ({ line := n.start_point.1 + 1, column := n.start_point.2 + 1,
           message := "Incomplete binary expression at line " ++ Nat.repr (n.start_point.1 + 1)
             ++ ", column " ++ Nat.repr (n.start_point.2 + 1),
           type := "incomplete_expression", node_type := "binary_expression" } : Diagnostic)
          ∈ lua_node_diags cl n := by
      rcases n with ⟨t, m, he, sp, ep, sb, eb, ch⟩
      simp only [Node.type] at hty
      subst hty
      simp only [Node.children] at hlen
      cases m <;>
        simp [lua_node_diags, Node.type, Node.is_missing, Node.start_point, Node.children,
          hlen]
    exact ⟨_, hmem, rfl, rfl, rfl, lua_own_diags_in_walk cl n _ hmem⟩
  · intro cb d hd
    rcases (xml_node_diags_prop cb cl n d hd).2.2 with h | h | h | h | h | h <;>
      simp [h]

theorem C7_amended_incomplete_expression_witness :
    ∃ d ∈ lua_node_diags [] bexpNode, d.type = "incomplete_expression"
      ∧ d.line = bexpNode.start_point.1 + 1 ∧ d.column = bexpNode.start_point.2 + 1
      ∧ d ∈ (find_errors [] (false, []) bexpNode).2 :=
  (C7_amended_incomplete_expression [] bexpNode rfl (by decide)).1

/-- C8: for a successful parse in either language, if the walk emits no
diagnostics but the library error flag of the root is set, the result is
exactly one `general_syntax_error` diagnostic at line 1, column 1 with
`has_errors = true`; and whenever the root error flag is set,
`has_errors` is true. -/
theorem C8_general_syntax_error (env : Env) (code : String) (p : ParserFun) (root : Node) :
    (_get_lua_parser_handle env = some p → p code = Except.ok root →
      ((find_errors (split_lines code.toList) (false, []) root).2 = [] →
          root.has_error = true →
          ( check_lua_syntax env code).errors
            = [{ line := 1, column := 1,
                 message := "Code contains syntax errors that could not be precisely located",
                 type := "general_syntax_error", node_type := "unknown" }]
          ∧ ( check_lua_syntax env code).has_errors = true)
        ∧ (root.has_error = true → ( check_lua_syntax env code).has_errors = true))
    ∧ (_get_xml_parser_handle env = some p → p code = Except.ok root →
      ((find_xml_errors code.toList (split_lines code.toList) (false, []) root).2 = [] →
          root.has_error = true →
          ( check_xml_syntax env code).errors
            = [{ line := 1, column := 1,
                 message := "XML contains syntax errors that could not be precisely located",
                 type := "general_syntax_error", node_type := "unknown" }]
          ∧ ( check_xml_syntax env code).has_errors = true)
        ∧ (root.has_error = true → ( check_xml_syntax env code).has_errors = true)) := by
  constructor
  · intro hp hok
    have hlua : env.LUA_LANGUAGE_AVAILABLE = true := by
      unfold _get_lua_parser_handle at hp
      by_contra h
      rw [Bool.not_eq_true] at h
      simp [h] at hp
    have hflag := (find_errors_flag (split_lines code.toList)).1 (false, []) root (by simp)
    unfold check_lua_syntax
    simp only [hlua, hp, hok, Bool.not_true]
    constructor
    · intro hw he2
      have h1 : (find_errors (split_lines code.toList) (false, []) root).1 = false := by
        rw [hflag, hw]
        rfl
      simp [String.toList] at h1 hw
      simp [String.toList, h1, hw, he2]
    · intro he2
      cases h1 : (find_errors (split_lines code.data) (false, []) root).1
      · simp [String.toList, h1, he2]
      · simp [String.toList, h1, he2]
  · intro hp hok
    have hxml : env.XML_LANGUAGE_AVAILABLE = true := by
      unfold _get_xml_parser_handle at hp
      by_contra h
      rw [Bool.not_eq_true] at h
      simp [h] at hp
    have hflag := (find_xml_errors_flag code.toList (split_lines code.toList)).1
      (false, []) root (by simp)
    unfold check_xml_syntax
    simp only [hxml, hp, hok, Bool.not_true]
    constructor
    · intro hw he2
      have h1 : (find_xml_errors code.toList (split_lines code.toList) (false, []) root).1
          = false := by
        rw [hflag, hw]
        rfl
      simp [String.toList] at h1 hw
      simp [String.toList, h1, hw, he2]
    · intro he2
      cases h1 : (find_xml_errors code.data (split_lines code.data) (false, []) root).1
      · simp [String.toList, h1, he2]
      · simp [String.toList, h1, he2]

/-- A root whose library error flag is set but that yields no walk
diagnostics. -/
def flaggedRoot : Node := .node "document" false true (0, 0) (0, 3) 0 3 []

def envFlagged : Env :=
  { TREE_SITTER_AVAILABLE := true, LUA_LANGUAGE_AVAILABLE := true,
    XML_LANGUAGE_AVAILABLE := true,
    lua_parser_ctor := some (fun _ => .ok flaggedRoot),
    xml_parser_ctor := some (fun _ => .ok flaggedRoot) }

theorem C8_general_syntax_error_witness :
    ( check_lua_syntax envFlagged "x +").errors
      = [{ line := 1, column := 1,
           message := "Code contains syntax errors that could not be precisely located",
           type := "general_syntax_error", node_type := "unknown" }]
    ∧ ( check_lua_syntax envFlagged "x +").has_errors = true :=
  ((C8_general_syntax_error envFlagged "x +" (fun _ => .ok flaggedRoot) flaggedRoot).1
    rfl rfl).1 (by decide) (by decide)

/-- Position/kind discipline of one diagnostic: either the (0,0)
sentinel — used exactly for the four positionless kinds — or a 1-based
position. -/
def sentinelProp (d : Diagnostic) : Prop :=
  ((d.line = 0 ∧ d.column = 0) ∨ (1 ≤ d.line ∧ 1 ≤ d.column))
  ∧ ((d.line = 0 ∧ d.column = 0)
    ↔ (d.type = "dependency_error" ∨ d.type = "unsupported_language"
        ∨ d.type = "internal_error" ∨ d.type = "parser_error"))

theorem sentinelProp_of_pos (d : Diagnostic) (h1 : 1 ≤ d.line) (h2 : 1 ≤ d.column)
    (ha : d.type = "syntax_error" ∨ d.type = "missing_node"
      ∨ d.type = "incomplete_expression" ∨ d.type = "unclosed_tag"
      ∨ d.type = "malformed_comment" ∨ d.type = "invalid_comment_content"
      ∨ d.type = "unquoted_attribute" ∨ d.type = "general_syntax_error") :
    sentinelProp d := by
  refine ⟨Or.inr ⟨h1, h2⟩, ?_, ?_⟩
  · intro h0
    exact absurd h0.1 (by omega)
  · intro h
    exfalso
    rcases ha with ht | ht | ht | ht | ht | ht | ht | ht <;> rw [ht] at h <;>
      rcases h with h | h | h | h <;> exact absurd h (by decide)

theorem sentinelProp_zero (d : Diagnostic) (h0 : d.line = 0) (hc : d.column = 0)
    (ht : d.type = "dependency_error" ∨ d.type = "unsupported_language"
      ∨ d.type = "internal_error" ∨ d.type = "parser_error") :
    sentinelProp d :=
  ⟨Or.inl ⟨h0, hc⟩, fun _ => ht, fun _ => ⟨h0, hc⟩⟩

theorem check_lua_syntax_sentinel (env : Env) (code : String) :
    ∀ d ∈ ( check_lua_syntax env code).errors, sentinelProp d := by
  intro d hd
  unfold check_lua_syntax at hd
  split at hd
  · simp at hd
    subst hd
    exact sentinelProp_zero _ rfl rfl (by simp)
  · split at hd
    · simp at hd
      subst hd
      exact sentinelProp_zero _ rfl rfl (by simp)
    · split at hd
      · simp at hd
        subst hd
        exact sentinelProp_zero _ rfl rfl (by simp)
      · rename_i root hroot
        have hwalk := (find_errors_mem (split_lines code.toList)
          (fun d => 1 ≤ d.line ∧ 1 ≤ d.column
            ∧ (d.type = "syntax_error" ∨ d.type = "missing_node"
              ∨ d.type = "incomplete_expression"))
          (lua_node_diags_prop (split_lines code.toList))).1 (false, []) root (by simp)
        dsimp only at hd
        split at hd
        · simp only [List.mem_append] at hd
          rcases hd with hd | hd
          · have h := hwalk d (by simpa [String.toList] using hd)
            exact sentinelProp_of_pos d h.1 h.2.1 (by tauto)
          · simp at hd
            subst hd
            exact sentinelProp_of_pos _ (by decide) (by decide) (by simp)
        · have h := hwalk d (by simpa [String.toList] using hd)
          exact sentinelProp_of_pos d h.1 h.2.1 (by tauto)

theorem check_xml_syntax_sentinel (env : Env) (code : String) :
    ∀ d ∈ ( check_xml_syntax env code).errors, sentinelProp d := by
  intro d hd
  unfold check_xml_syntax at hd
  split at hd
  · simp at hd
    subst hd
    exact sentinelProp_zero _ rfl rfl (by simp)
  · split at hd
    · simp at hd
      subst hd
      exact sentinelProp_zero _ rfl rfl (by simp)
    · split at hd
      · simp at hd
        subst hd
        exact sentinelProp_zero _ rfl rfl (by simp)
      · rename_i root hroot
        have hwalk := (find_xml_errors_mem code.toList (split_lines code.toList)
          (fun d => 1 ≤ d.line ∧ 1 ≤ d.column
            ∧ (d.type = "syntax_error" ∨ d.type = "missing_node" ∨ d.type = "unclosed_tag"
              ∨ d.type = "malformed_comment" ∨ d.type = "invalid_comment_content"
              ∨ d.type = "unquoted_attribute"))
          (xml_node_diags_prop code.toList (split_lines code.toList))).1
          (false, []) root (by simp)
        dsimp only at hd
        split at hd
        · simp only [List.mem_append] at hd
          rcases hd with hd | hd
          · have h := hwalk d (by simpa [String.toList] using hd)
            exact sentinelProp_of_pos d h.1 h.2.1 (by tauto)
          · simp at hd
            subst hd
            exact sentinelProp_of_pos _ (by decide) (by decide) (by simp)
        · have h := hwalk d (by simpa [String.toList] using hd)
          exact sentinelProp_of_pos d h.1 h.2.1 (by tauto)

/-- C9 counterexample: when parser construction fails, the emitted
`parser_error` diagnostic also carries the (0,0) sentinel, so (0,0) is
not reserved to the three kinds named by the claim. -/
def envNoCtor : Env :=
  { TREE_SITTER_AVAILABLE := true, LUA_LANGUAGE_AVAILABLE := true,
    XML_LANGUAGE_AVAILABLE := true, lua_parser_ctor := none, xml_parser_ctor := none }

theorem C9_counterexample :
    ∃ d ∈ ( check_syntax envNoCtor "x = 1" "lua").errors,
      d.line = 0 ∧ d.column = 0
      ∧ d.type ≠ "dependency_error" ∧ d.type ≠ "unsupported_language"
      ∧ d.type ≠ "internal_error" := by
  decide

/-- C9 (amended): every diagnostic in every `check_syntax` result either
carries a 1-based position or the (0,0) sentinel, and the sentinel is
used exactly for the `dependency_error`, `unsupported_language`,
`internal_error` and `parser_error` kinds. -/
theorem C9_amended_positions (env : Env) (code language : String) :
    ∀ d ∈ ( check_syntax env code language).errors, sentinelProp d := by
  intro d hd
  unfold check_syntax at hd
  split at hd
  · simp at hd
    subst hd
    exact sentinelProp_zero _ rfl rfl (by simp)
  · split at hd
    · exact check_lua_syntax_sentinel env code d hd
    · split at hd
      · exact check_xml_syntax_sentinel env code d hd
      · simp at hd
        subst hd
        exact sentinelProp_zero _ rfl rfl (by simp)

theorem C9_amended_positions_witness :
    sentinelProp
      { line := 0, column := 0,
        message := "Unsupported language: cobol. Currently supported: \x27lua\x27, \x27xml\x27.",
        type := "unsupported_language", node_type := "language_error" } :=
  C9_amended_positions envAll "" "cobol" _ (by decide)

/-- C10: when the grammar module of a language is importable but the cached
parser getter returns `None`, the per-language checker returns
`available = false`, `has_errors = true` and exactly one `parser_error`
diagnostic with node type `initialization_error` at line 0, column 0. -/
theorem C10_parser_init_failure (env : Env) (code : String) :
    (env.LUA_LANGUAGE_AVAILABLE = true → _get_lua_parser_handle env = none →
      check_lua_syntax env code
        = { has_errors := true, is_valid := false,
            errors := [
              { line := 0, column := 0,
                message := "Failed to initialize Lua parser",
                type := "parser_error", node_type := "initialization_error" }],
            language := "lua", available := false })
    ∧ (env.XML_LANGUAGE_AVAILABLE = true → _get_xml_parser_handle env = none →
      check_xml_syntax env code
        = { has_errors := true, is_valid := false,
            errors := [
              { line := 0, column := 0,
                message := "Failed to initialize XML parser",
                type := "parser_error", node_type := "initialization_error" }],
            language := "xml", available := false }) := by
  constructor
  · intro hl hp
    unfold check_lua_syntax
    simp [hl, hp]
  · intro hx hp
    unfold check_xml_syntax
    simp [hx, hp]

theorem C10_parser_init_failure_witness :
    check_lua_syntax envNoCtor "x = 1"
      = { has_errors := true, is_valid := false,
          errors := [
            { line := 0, column := 0,
              message := "Failed to initialize Lua parser",
              type := "parser_error", node_type := "initialization_error" }],
          language := "lua", available := false }
    ∧ check_xml_syntax envNoCtor "<a/>"
      = { has_errors := true, is_valid := false,
          errors := [
            { line := 0, column := 0,
              message := "Failed to initialize XML parser",
              type := "parser_error", node_type := "initialization_error" }],
          language := "xml", available := false } :=
  ⟨(C10_parser_init_failure envNoCtor "x = 1").1 (by decide) rfl,
   (C10_parser_init_failure envNoCtor "<a/>").2 (by decide) rfl⟩

end SyntaxChecker
